import Mathlib

/-!
Verification of the prediction service in `src/predict.py`.

The program is a small HTTP service: it loads a regression model once at
startup (`model = joblib.load('model.joblib')`), and exposes a single
endpoint `POST /predict` whose handler

  * parses the request body as JSON (`request.get_json()`),
  * extracts `engagement_score` and `experience_score` with
    `data.get(name, 0)` (Python dict lookup with default `0`),
  * calls `model.predict([[engagement_score, experience_score]])[0]`,
  * returns `jsonify({'satisfaction_score': prediction, 'model_version': '1.0.0'})`.

We embed this shallowly: JSON values are an inductive type with rational
numbers standing for JSON numbers, the opaque model artifact is an
arbitrary function on a two-feature row, and the HTTP layer carries a
status code and an optional structured JSON body.
-/

/-- JSON values, as delivered to the handler by `request.get_json()`.
JSON numbers are represented by rationals. JSON objects are association
lists of string keys (Python dicts; lookup is by key). -/
inductive Json where
  | null : Json
  | bool (b : Bool) : Json
  | num (q : ℚ) : Json
  | str (s : String) : Json
  | arr (elems : List Json) : Json
  | obj (fields : List (String × Json)) : Json

mutual

/-- Decidable equality of JSON values (written by hand: the automatic
derivation does not handle the nesting through lists). -/
def Json.decEq : (a b : Json) → Decidable (a = b)
  | .null, .null => isTrue rfl
  | .bool a, .bool c =>
    if h : a = c then isTrue (by rw [h])
    else isFalse (fun he => h (Json.bool.inj he))
  | .num a, .num c =>
    if h : a = c then isTrue (by rw [h])
    else isFalse (fun he => h (Json.num.inj he))
  | .str a, .str c =>
    if h : a = c then isTrue (by rw [h])
    else isFalse (fun he => h (Json.str.inj he))
  | .arr xs, .arr ys =>
    match Json.decEqList xs ys with
    | isTrue h => isTrue (by rw [h])
    | isFalse h => isFalse (fun he => h (Json.arr.inj he))
  | .obj xs, .obj ys =>
    match Json.decEqFields xs ys with
    | isTrue h => isTrue (by rw [h])
    | isFalse h => isFalse (fun he => h (Json.obj.inj he))
  | .null, .bool _ | .null, .num _ | .null, .str _ | .null, .arr _ | .null, .obj _
  | .bool _, .null | .bool _, .num _ | .bool _, .str _ | .bool _, .arr _ | .bool _, .obj _
  | .num _, .null | .num _, .bool _ | .num _, .str _ | .num _, .arr _ | .num _, .obj _
  | .str _, .null | .str _, .bool _ | .str _, .num _ | .str _, .arr _ | .str _, .obj _
  | .arr _, .null | .arr _, .bool _ | .arr _, .num _ | .arr _, .str _ | .arr _, .obj _
  | .obj _, .null | .obj _, .bool _ | .obj _, .num _ | .obj _, .str _ | .obj _, .arr _ =>
    isFalse (fun he => Json.noConfusion he)

/-- Decidable equality of JSON value lists. -/
def Json.decEqList : (xs ys : List Json) → Decidable (xs = ys)
  | [], [] => isTrue rfl
  | [], _ :: _ => isFalse (fun h => List.noConfusion h)
  | _ :: _, [] => isFalse (fun h => List.noConfusion h)
  | x :: xs, y :: ys =>
    match Json.decEq x y, Json.decEqList xs ys with
    | isTrue h1, isTrue h2 => isTrue (by rw [h1, h2])
    | isFalse h1, _ => isFalse (fun he => h1 (List.cons.inj he).1)
    | _, isFalse h2 => isFalse (fun he => h2 (List.cons.inj he).2)

/-- Decidable equality of JSON object field lists. -/
def Json.decEqFields : (xs ys : List (String × Json)) → Decidable (xs = ys)
  | [], [] => isTrue rfl
  | [], _ :: _ => isFalse (fun h => List.noConfusion h)
  | _ :: _, [] => isFalse (fun h => List.noConfusion h)
  | (k1, v1) :: xs, (k2, v2) :: ys =>
    if hk : k1 = k2 then
      match Json.decEq v1 v2, Json.decEqFields xs ys with
      | isTrue hv, isTrue ht => isTrue (by rw [hk, hv, ht])
      | isFalse hv, _ =>
        isFalse (fun he => hv (congrArg (fun l => (l.headD ("", Json.null)).2) he))
      | _, isFalse ht => isFalse (fun he => ht (congrArg List.tail he))
    else isFalse (fun he => hk (congrArg (fun l => (l.headD ("", Json.null)).1) he))

end

instance : DecidableEq Json := Json.decEq

/-- The opaque model artifact (`model.joblib`): a pre-trained regression
function on a two-feature row. `predictRow e0 e1` is its numeric output
on the row `[e0, e1]`. -/
structure Model where
  predictRow : ℚ → ℚ → ℚ

/-- `model.predict` on a batch of two-feature rows: one output per row
(`(a, b)` stands for the row `[a, b]`). The handler only ever calls this
on the single row `[[engagement_score, experience_score]]`. -/
def Model.predict (m : Model) (rows : List (ℚ × ℚ)) : List ℚ :=
  rows.map fun r => m.predictRow r.1 r.2

/-- Python `data.get(key, dflt)` as used on the parsed body: defined only
when `data` is a dict (JSON object); on any other value Python raises
`AttributeError`, modelled as `none`. When the key is absent the default
is returned. -/
def Json.dictGet (data : Json) (key : String) (dflt : Json) : Option Json :=
  match data with
  | .obj fields => some ((fields.lookup key).getD dflt)
  | _ => none

/-- Numeric coercion applied when the extracted value is placed into the
two-column input array for `model.predict`: JSON numbers are used as is,
booleans coerce to 1/0 (Python `bool` is numeric); any other value
(null, string, array, object) makes the prediction call raise. -/
def Json.asFeature : Json → Option ℚ
  | .num q => some q
  | .bool b => some (if b then 1 else 0)
  | _ => none

/-- Whether a JSON value is an object (a Python dict after parsing). -/
def Json.isObj : Json → Bool
  | .obj _ => true
  | _ => false

/-- The body of the view function `predict` (src/predict.py, lines 13-28).
The argument is the parse result of the request body: `none` when the
body is empty or not valid JSON (then `request.get_json()` raises and the
handler never runs its own code), `some j` when it parsed to `j`.
The result is `some` of the JSON response when the handler completes,
`none` when the Python code raises (non-dict data, non-numeric feature
value). -/
def predict (m : Model) (parsedBody : Option Json) : Option Json :=
  match parsedBody with
  | none => none
  | some data => do
    let e0 ← data.dictGet "engagement_score" (Json.num 0)
    let e1 ← data.dictGet "experience_score" (Json.num 0)
    let x0 ← e0.asFeature
    let x1 ← e1.asFeature
    some (Json.obj [("satisfaction_score", Json.num ((m.predict [(x0, x1)]).headD 0)),
                    ("model_version", Json.str "1.0.0")])

/-- An HTTP response: a status code and, when the handler completed, its
structured JSON body (`none` = no structured body, the framework's
default error page). -/
structure HttpResponse where
  status : Nat
  body : Option Json
deriving DecidableEq

/-- Modelled from the spec: the framework wrapper around the view
function is not part of src/ (it is Flask). Per the spec, a completed
handler returns HTTP 200 with its JSON body, and an unhandled failure
"surfaces as an HTTP 500 (framework default), no structured error
body". -/
def serve (m : Model) (parsedBody : Option Json) : HttpResponse :=
  match predict m parsedBody with
  | some j => ⟨200, some j⟩
  | none => ⟨500, none⟩

/-- The process-wide state of the running service: just the loaded model
(src/predict.py line 7). Nothing in the handler assigns to it. -/
structure ServerState where
  model : Model

/-- Handling one request: the handler reads the shared model and writes
nothing, so the state after the request is the state before it. -/
def handleRequest (s : ServerState) (parsedBody : Option Json) : HttpResponse × ServerState :=
  (serve s.model parsedBody, s)

/-- Serving a sequence of requests, threading the process state. -/
def serveAll (s : ServerState) (reqs : List (Option Json)) : List HttpResponse × ServerState :=
  match reqs with
  | [] => ([], s)
  | r :: rs =>
    let out := handleRequest s r
    let rest := serveAll out.2 rs
    (out.1 :: rest.1, rest.2)

/-- Process startup (src/predict.py line 7): `joblib.load` runs once at
module import, before the app serves; a load failure (`none`) is fatal
and no request is ever served. -/
def startServer (loaded : Option Model) : Option ServerState :=
  loaded.map ServerState.mk

/-- The whole process: load the model once, then serve the request
sequence. There is no other read of the model file. -/
def runProcess (loaded : Option Model) (reqs : List (Option Json)) :
    Option (List HttpResponse × ServerState) :=
  (startServer loaded).map (fun s => serveAll s reqs)

/-- A concrete model used to instantiate witnesses: predicts the first
feature itself. -/
def constModel : Model := ⟨fun a _ => a⟩

/-! ## Helper lemmas -/

/-- Unfolding of the handler on an object body: everything it does with
the body goes through the two keyed lookups. -/
theorem predict_obj (m : Model) (fields : List (String × Json)) :
    predict m (some (Json.obj fields)) =
      (((fields.lookup "engagement_score").getD (Json.num 0)).asFeature).bind fun x0 =>
        (((fields.lookup "experience_score").getD (Json.num 0)).asFeature).bind fun x1 =>
          some (Json.obj [("satisfaction_score", Json.num ((m.predict [(x0, x1)]).headD 0)),
                          ("model_version", Json.str "1.0.0")]) := by
  simp [predict, Json.dictGet]

/-- If either extracted field value fails numeric coercion, the handler
raises (returns no JSON). -/
theorem predict_none_of_feature_none (m : Model) (fields : List (String × Json))
    (h : ((fields.lookup "engagement_score").getD (Json.num 0)).asFeature = none ∨
         ((fields.lookup "experience_score").getD (Json.num 0)).asFeature = none) :
    predict m (some (Json.obj fields)) = none := by
  rw [predict_obj]
  rcases h with h | h
  · rw [h]; rfl
  · cases h0 : ((fields.lookup "engagement_score").getD (Json.num 0)).asFeature with
    | none => rfl
    | some x0 => rw [h]; rfl

/-- Whatever JSON the handler returns is the two-field response object. -/
theorem predict_some_shape (m : Model) (pb : Option Json) (j : Json)
    (h : predict m pb = some j) :
    ∃ q : ℚ, j = Json.obj [("satisfaction_score", Json.num q),
                           ("model_version", Json.str "1.0.0")] := by
  cases pb with
  | none => simp [predict] at h
  | some data =>
    cases data with
    | obj fields =>
      rw [predict_obj] at h
      rcases Option.bind_eq_some.mp h with ⟨x0, hx0, h1⟩
      rcases Option.bind_eq_some.mp h1 with ⟨x1, hx1, h2⟩
      exact ⟨(m.predict [(x0, x1)]).headD 0, (Option.some.inj h2).symm⟩
    | null => simp [predict, Json.dictGet] at h
    | bool b => simp [predict, Json.dictGet] at h
    | num q => simp [predict, Json.dictGet] at h
    | str s => simp [predict, Json.dictGet] at h
    | arr xs => simp [predict, Json.dictGet] at h

/-! ## Claims -/

/-- C1: for every pair of numeric inputs (e0, e1), a POST /predict request
whose JSON body is `{"engagement_score": e0, "experience_score": e1}`
returns HTTP 200 with `satisfaction_score` equal to the first element of
the loaded model's prediction on the single-row two-column input
`[[e0, e1]]` (features in that order), along with the version string. -/
theorem serve_numeric_inputs_ok (m : Model) (e0 e1 : ℚ) :
    serve m (some (Json.obj [("engagement_score", Json.num e0),
                             ("experience_score", Json.num e1)])) =
      ⟨200, some (Json.obj
        [("satisfaction_score", Json.num ((m.predict [(e0, e1)]).headD 0)),
         ("model_version", Json.str "1.0.0")])⟩ := rfl

/-- C2: for every JSON-object request body in which one of the two score
keys is absent, adding that key with value 0 leaves the response
unchanged; in particular the empty object gets the same response as
`{"engagement_score": 0, "experience_score": 0}`. -/
theorem absent_field_equals_zero_field (m : Model) (k : String)
    (fields : List (String × Json))
    (hk : k = "engagement_score" ∨ k = "experience_score")
    (habs : fields.lookup k = none) :
    serve m (some (Json.obj fields)) =
      serve m (some (Json.obj ((k, Json.num 0) :: fields))) ∧
    serve m (some (Json.obj [])) =
      serve m (some (Json.obj [("engagement_score", Json.num 0),
                               ("experience_score", Json.num 0)])) := by
  constructor
  · rcases hk with hk | hk <;> subst hk <;>
      simp [serve, predict, Json.dictGet, List.lookup, habs]
  · rfl

/-- C2 witness: the empty body, with the key then supplied as 0. -/
theorem absent_field_equals_zero_field_witness :
    ("engagement_score" = "engagement_score" ∨
      "engagement_score" = "experience_score") ∧
    (([] : List (String × Json)).lookup "engagement_score" = none) ∧
    (serve constModel (some (Json.obj [])) =
      serve constModel (some (Json.obj [("engagement_score", Json.num 0)])) ∧
     serve constModel (some (Json.obj [])) =
      serve constModel (some (Json.obj [("engagement_score", Json.num 0),
                                        ("experience_score", Json.num 0)]))) :=
  ⟨Or.inl rfl, rfl,
    absent_field_equals_zero_field constModel "engagement_score" [] (Or.inl rfl) rfl⟩

/-- C5: the handler is deterministic and stateless: serving the same
parsed body twice in a row from the same server state yields two
identical responses (both equal to `serve m b`) and the state is
unchanged. -/
theorem serve_deterministic (m : Model) (b : Option Json) :
    serveAll ⟨m⟩ [b, b] = ([serve m b, serve m b], ⟨m⟩) := rfl

/-- C7 helper: serving any request sequence uses the startup model for
every response and never changes the state. -/
theorem serveAll_eq (m : Model) (reqs : List (Option Json)) :
    serveAll ⟨m⟩ reqs = (reqs.map (serve m), ⟨m⟩) := by
  induction reqs with
  | nil => rfl
  | cons r rs ih => simp [serveAll, handleRequest, ih]

/-- C7: the model is loaded exactly once at startup: a process started
from a successful load serves every request with that same model and
finishes any request sequence with its state (the loaded model) exactly
as it started; a failed load serves nothing. -/
theorem model_loaded_once_never_mutated (m : Model) (reqs : List (Option Json)) :
    runProcess (some m) reqs = some (reqs.map (serve m), ⟨m⟩) ∧
    runProcess none reqs = none := by
  constructor
  · simp [runProcess, startServer, serveAll_eq]
  · rfl

/-- C9: noninterference: the response to an object body depends only on
the two score keys; two bodies with identical lookups for those keys get
identical responses, whatever their other keys hold. -/
theorem serve_depends_only_on_score_fields (m : Model)
    (f1 f2 : List (String × Json))
    (h0 : f1.lookup "engagement_score" = f2.lookup "engagement_score")
    (h1 : f1.lookup "experience_score" = f2.lookup "experience_score") :
    serve m (some (Json.obj f1)) = serve m (some (Json.obj f2))  := by
  simp [serve, predict_obj, h0, h1]

/-- C9 witness: an extra unrelated key does not change the response. -/
theorem serve_depends_only_on_score_fields_witness :
    ([("other", Json.str "x")] : List (String × Json)).lookup "engagement_score" =
      ([] : List (String × Json)).lookup "engagement_score" ∧
    ([("other", Json.str "x")] : List (String × Json)).lookup "experience_score" =
      ([] : List (String × Json)).lookup "experience_score" ∧
    serve constModel (some (Json.obj [("other", Json.str "x")])) =
      serve constModel (some (Json.obj [])) :=
  ⟨by decide, by decide,
    serve_depends_only_on_score_fields constModel [("other", Json.str "x")] []
      (by decide) (by decide)⟩

/-- C10: a parsed body that is valid JSON but not an object (null, bool,
number, string or array: a non-dict Python value) never yields a
successful prediction: the attribute lookup raises and the response is
the bare 500, never HTTP 200 with defaulted fields. -/
theorem nonobject_body_fails (m : Model) (j : Json) (h : j.isObj = false) :
    serve m (some j) = ⟨500, none⟩ ∧ (serve m (some j)).status ≠ 200 := by
  cases j <;> simp_all [serve, predict, Json.dictGet, Json.isObj]

/-- C10 witness: a bare JSON number as the body. -/
theorem nonobject_body_fails_witness :
    (Json.num 3).isObj = false ∧
    (serve constModel (some (Json.num 3)) = ⟨500, none⟩ ∧
     (serve constModel (some (Json.num 3))).status ≠ 200) :=
  ⟨rfl, nonobject_body_fails constModel (Json.num 3) rfl⟩

/-- C3 counterexample: a present `engagement_score: null` does not behave
like an absent field: with the same model and the same
`experience_score`, the null-bearing request errors (500) while the
absent-field request succeeds (200), so the responses differ. -/
theorem present_nonnumeric_not_defaulted_cex :
    (serve constModel (some (Json.obj [("engagement_score", Json.null),
        ("experience_score", Json.num 3)]))).status = 500 ∧
    (serve constModel (some (Json.obj [("experience_score", Json.num 3)]))).status = 200 ∧
    serve constModel (some (Json.obj [("engagement_score", Json.null),
        ("experience_score", Json.num 3)])) ≠
      serve constModel (some (Json.obj [("experience_score", Json.num 3)])) := by
  refine ⟨rfl, rfl, ?_⟩
  decide

/-- C3 amended: a score field is treated as 0 only when it is absent; a
field that is present but whose value is not coercible to a number
(null, string, array, object) is passed toward the prediction and the
request fails with HTTP 500 instead of yielding the absent-field
prediction. -/
theorem present_nonnumeric_field_fails (m : Model) (k : String)
    (fields : List (String × Json)) (v : Json)
    (hk : k = "engagement_score" ∨ k = "experience_score")
    (hv : fields.lookup k = some v) (hnf : v.asFeature = none) :
    (serve m (some (Json.obj fields))).status = 500 := by
  have hp : predict m (some (Json.obj fields)) = none := by
    apply predict_none_of_feature_none
    rcases hk with hk | hk <;> subst hk
    · left; rw [hv]; exact hnf
    · right; rw [hv]; exact hnf
  simp [serve, hp]

/-- C3 amended witness: a null engagement_score fails with 500. -/
theorem present_nonnumeric_field_fails_witness :
    ("engagement_score" = "engagement_score" ∨
      "engagement_score" = "experience_score") ∧
    ([("engagement_score", Json.null)] : List (String × Json)).lookup
      "engagement_score" = some Json.null ∧
    Json.null.asFeature = none ∧
    (serve constModel (some (Json.obj [("engagement_score", Json.null)]))).status = 500 :=
  ⟨Or.inl rfl, rfl, rfl,
    present_nonnumeric_field_fails constModel "engagement_score"
      [("engagement_score", Json.null)] Json.null (Or.inl rfl) rfl rfl⟩

/-- C4: every successful (HTTP 200) response carries a JSON object with
exactly the two fields satisfaction_score (some number) and
model_version, and model_version is the literal "1.0.0". -/
theorem ok_response_shape (m : Model) (pb : Option Json)
    (h : (serve m pb).status = 200) :
    ∃ q : ℚ, (serve m pb).body =
      some (Json.obj [("satisfaction_score", Json.num q),
                      ("model_version", Json.str "1.0.0")]) := by
  cases hp : predict m pb with
  | none => simp [serve, hp] at h
  | some j =>
    rcases predict_some_shape m pb j hp with ⟨q, rfl⟩
    exact ⟨q, by simp [serve, hp]⟩

/-- C4 witness: the empty-object body succeeds and has the two-field
response shape. -/
theorem ok_response_shape_witness :
    (serve constModel (some (Json.obj []))).status = 200 ∧
    ∃ q : ℚ, (serve constModel (some (Json.obj []))).body =
      some (Json.obj [("satisfaction_score", Json.num q),
                      ("model_version", Json.str "1.0.0")]) :=
  ⟨rfl, ok_response_shape constModel (some (Json.obj [])) rfl⟩

/-- C6: a request whose body is empty or not valid JSON (the parse
yields nothing), and an object request either of whose extracted field
values resists numeric coercion, never gets a successful prediction: the
response is exactly the framework's 500 with no structured body. -/
theorem invalid_body_gives_500 (m : Model) :
    serve m none = ⟨500, none⟩ ∧
    ∀ fields : List (String × Json),
      (((fields.lookup "engagement_score").getD (Json.num 0)).asFeature = none ∨
       ((fields.lookup "experience_score").getD (Json.num 0)).asFeature = none) →
      serve m (some (Json.obj fields)) = ⟨500, none⟩ := by
  refine ⟨rfl, fun fields h => ?_⟩
  simp [serve, predict_none_of_feature_none m fields h]

/-- C6 witness: the unparseable body and a null-valued field. -/
theorem invalid_body_gives_500_witness :
    serve constModel none = ⟨500, none⟩ ∧
    ((([("engagement_score", Json.null)] : List (String × Json)).lookup
        "engagement_score").getD (Json.num 0)).asFeature = none ∧
    serve constModel (some (Json.obj [("engagement_score", Json.null)])) = ⟨500, none⟩ :=
  ⟨(invalid_body_gives_500 constModel).1, rfl,
    (invalid_body_gives_500 constModel).2 [("engagement_score", Json.null)] (Or.inl rfl)⟩

/-- C8: a field present with JSON null is not defaulted to 0: the
request fails with 500; in particular the body with only a null
engagement_score is answered differently from the empty body. -/
theorem present_null_not_defaulted (m : Model) (fields : List (String × Json))
    (h : fields.lookup "engagement_score" = some Json.null ∨
         fields.lookup "experience_score" = some Json.null) :
    (serve m (some (Json.obj fields))).status = 500 ∧
    serve m (some (Json.obj [("engagement_score", Json.null)])) ≠
      serve m (some (Json.obj [])) := by
  constructor
  · have hp : predict m (some (Json.obj fields)) = none := by
      apply predict_none_of_feature_none
      rcases h with h | h
      · left; rw [h]; rfl
      · right; rw [h]; rfl
    simp [serve, hp]
  · intro he
    have := congrArg HttpResponse.status he
    simp [serve, predict_obj, Json.asFeature] at this

/-- C8 witness: the single-field null body. -/
theorem present_null_not_defaulted_witness :
    (([("engagement_score", Json.null)] : List (String × Json)).lookup
        "engagement_score" = some Json.null ∨
     ([("engagement_score", Json.null)] : List (String × Json)).lookup
        "experience_score" = some Json.null) ∧
    ((serve constModel (some (Json.obj [("engagement_score", Json.null)]))).status = 500 ∧
     serve constModel (some (Json.obj [("engagement_score", Json.null)])) ≠
       serve constModel (some (Json.obj []))) :=
  ⟨Or.inl rfl,
    present_null_not_defaulted constModel [("engagement_score", Json.null)] (Or.inl rfl)⟩
